import Mathlib

/-!
Verification development for the SpaceCleanser discovery and deletion engine
(src/scanner.py, src/cleaner.py).

The Python code is shallowly embedded: the filesystem seen by a scan is a
finite `DirTree` whose files carry the observations the code makes of them
(`stat` success, size, the digest `hash_file` would return, timestamps);
`os.walk` with in-place pruning of `dirnames` becomes a structural walk;
the shared `threading.Event` cancellation token becomes a value recording
its state at call entry plus the check index at which an external `set`
lands during the call.  Python `str` operations used by the code
(`lower`, `in`, `startswith`, `strip`, `Path.name`, `Path.suffix`) are
implemented over `List Char`.
-/

namespace SpaceCleanser

/-- Python `s.lower()` restricted to the ASCII range, as a char list. -/
def lowerChars (s : String) : List Char :=
  s.data.map Char.toLower

/-- Does `pre` start the list `l`?  (Python `str.startswith` on a full string.) -/
def prefixChars : List Char → List Char → Bool
  | [], _ => true
  | _ :: _, [] => false
  | a :: as, b :: bs => a = b && prefixChars as bs

/-- Python substring test `needle in hay` over char lists. -/
def containsChars (needle : List Char) : List Char → Bool
  | [] => needle.isEmpty
  | c :: rest => prefixChars needle (c :: rest) || containsChars needle rest

/-- Split a char list on a separator character (Python path splitting on the
backslash separator used by the Windows paths in the code). -/
def splitOnSep (sep : Char) : List Char → List (List Char)
  | [] => [[]]
  | c :: rest =>
    let r := splitOnSep sep rest
    if c = sep then [] :: r
    else
      match r with
      | [] => [[c]]
      | g :: gs => (c :: g) :: gs

/-- Python `pathlib.Path(p).name`: the final path component. -/
def pathName (p : String) : List Char :=
  (splitOnSep '\\' p.data).getLastD []

/-- Does the component begin with the given character?  (Python
`name.startswith` with a single-character argument.) -/
def startsWithChar (cs : List Char) (c : Char) : Bool :=
  match cs with
  | [] => false
  | a :: _ => a = c

/-- Index of the last occurrence of a dot, if any. -/
def lastDotIndex : List Char → Option Nat
  | [] => none
  | c :: rest =>
    match lastDotIndex rest with
    | some i => some (i + 1)
    | none => if c = '.' then some (0 : Nat) else none

/-- Python `pathlib.Path` `suffix` of a file name: the part from the last
dot on, empty when the dot is absent, leading, or trailing. -/
def pathSuffix (name : List Char) : List Char :=
  match lastDotIndex name with
  | none => []
  | some i => if 0 < i ∧ i + 1 < name.length then name.drop i else []

/-- Python `str.strip()` (the whitespace kinds that occur in `rd` output). -/
def isSpaceChar (c : Char) : Bool :=
  c = ' ' || c = '\t' || c = '\n' || c = '\r'

/-- Strip leading and trailing whitespace from a char list. -/
def stripChars (cs : List Char) : List Char :=
  ((cs.dropWhile isSpaceChar).reverse.dropWhile isSpaceChar).reverse

/-- `str(Path(dirpath) / name)` on Windows: join with a backslash. -/
def joinPath (dir name : String) : String :=
  dir ++ "\\" ++ name

/-! ## scanner.py : DiscoveryScanner -/

/-- `DiscoveryScanner.EXCLUDED_PATHS` (scanner.py lines 410-419). -/
def EXCLUDED_PATHS : List String :=
  ["C:\\Windows",
   "C:\\Program Files",
   "C:\\Program Files (x86)",
   "C:\\ProgramData",
   "$Recycle.Bin",
   "System Volume Information",
   "C:\\$Recycle.Bin",
   "C:\\System Volume Information"]

/-- `DiscoveryScanner._should_exclude_path` (scanner.py lines 434-443): any
excluded entry occurring case-insensitively in the path string, or a final
component beginning with a dot or a dollar sign.  (The leading underscore of
the Python name is dropped.) -/
def should_exclude_path (p : String) : Bool :=
  EXCLUDED_PATHS.any (fun ex => containsChars (lowerChars ex) (lowerChars p))
    || startsWithChar (pathName p) '.'
    || startsWithChar (pathName p) '$'

/-- `DiscoveryScanner.FILE_TYPE_MAP` (scanner.py lines 422-428). -/
def FILE_TYPE_MAP : List (String × List String) :=
  [("video", [".mp4", ".mkv", ".avi", ".mov", ".wmv", ".flv", ".webm", ".m4v"]),
   ("installer", [".exe", ".msi", ".iso", ".img", ".dmg"]),
   ("archive", [".zip", ".rar", ".7z", ".tar", ".gz", ".bz2", ".xz"]),
   ("image", [".png", ".jpg", ".jpeg", ".gif", ".bmp", ".psd", ".raw", ".tiff", ".webp"]),
   ("document", [".pdf", ".doc", ".docx", ".ppt", ".pptx", ".xls", ".xlsx", ".txt"])]

/-- `DiscoveryScanner.get_file_type` (scanner.py lines 465-471), applied to the
file name (the `suffix` of a path is that of its final component). -/
def get_file_type (fileName : String) : String :=
  let ext := (pathSuffix fileName.data).map Char.toLower
  match FILE_TYPE_MAP.find? (fun entry => entry.2.any (fun e => e.data = ext)) with
  | some entry => entry.1
  | none => "other"

/-- A file as the walk observes it: its name, the result of `stat`
(success flag, size in bytes, mtime, optional ctime) and the digest
`hash_file` would produce (`none` when the file cannot be read;
the MD5 computation itself is abstracted to its result). -/
structure FileNode where
  name : String
  size : Nat
  statOk : Bool
  hashResult : Option String
  mtime : Int
  ctime : Option Int
deriving DecidableEq

/-- A directory tree: name, directly contained files, subdirectories. -/
inductive DirTree where
  | node (name : String) (files : List FileNode) (subdirs : List DirTree)

/-- Name of a directory. -/
def DirTree.name : DirTree → String
  | .node n _ _ => n

mutual

/-- `os.walk(root)` top-down, with the in-place pruning of `dirnames` the two
scanners perform (an excluded subdirectory is dropped before being descended
into, scanner.py lines 501 and 525 and 625): the list of
`(dirpath, filenames)` pairs in visit order. -/
def walkFrom (path : String) : DirTree → List (String × List FileNode)
  | .node _ files subdirs => (path, files) :: walkSubdirs path subdirs

/-- Walk of a directory list: excluded subdirectories are pruned, the rest
are descended into in order. -/
def walkSubdirs (path : String) : List DirTree → List (String × List FileNode)
  | [] => []
  | t :: ts =>
    if should_exclude_path (joinPath path t.name) then walkSubdirs path ts
    else walkFrom (joinPath path t.name) t ++ walkSubdirs path ts

end

/-- The cancellation token (`threading.Event`): its state at call entry, and
the check index at which an external `set()` lands during the call
(`none` when no set happens while the scan runs). -/
structure CancelEvent where
  isSet : Bool
  externalSetAt : Option Nat
deriving DecidableEq

/-- `Event.clear()`. -/
def CancelEvent.clear (e : CancelEvent) : CancelEvent :=
  { e with isSet := false }

/-- `Event.is_set()` at the `k`-th cancellation check after the call began:
true when the token was set at entry and not cleared, or once the external
set has landed. -/
def CancelEvent.is_set (e : CancelEvent) (k : Nat) : Bool :=
  e.isSet ||
    match e.externalSetAt with
    | some n => decide (n ≤ k)
    | none => false

/-- `FileInfo` (scanner.py lines 366-372). -/
structure FileInfo where
  path : String
  size_bytes : Nat
  modified_date : Int
  created_date : Option Int
deriving DecidableEq

/-- `DuplicateGroup` (scanner.py lines 375-380). -/
structure DuplicateGroup where
  file_hash : String
  size_bytes : Nat
  files : List FileInfo
deriving DecidableEq

/-- `DuplicateGroup.get_wasted_space` (scanner.py lines 382-386). -/
def DuplicateGroup.get_wasted_space (g : DuplicateGroup) : Nat :=
  if g.files.length < 2 then 0
  else g.size_bytes * (g.files.length - 1)

/-- `DuplicateGroup.get_representative_name` (scanner.py lines 388-392). -/
def DuplicateGroup.get_representative_name (g : DuplicateGroup) : String :=
  match g.files with
  | [] => "Unknown"
  | f :: _ => String.mk (pathName f.path)

/-- `LargeFileInfo` (scanner.py lines 395-403). -/
structure LargeFileInfo where
  path : String
  size_bytes : Nat
  modified_date : Int
  created_date : Option Int
  file_type : String
  age_days : Int
deriving DecidableEq

/-- Mutable state of the hashing pass of `scan_duplicates`: the
insertion-ordered `hash_groups` dict, the files handed to `hash_file`
(recorded so that the never-hashed property is statable), and
`processed_count`. -/
structure DupState where
  hash_groups : List (String × List FileInfo)
  hashed : List FileNode
  processed_count : Nat
deriving DecidableEq

/-- `hash_groups[file_hash].append(file_info)` with dict insertion order
(scanner.py lines 562-564). -/
def appendGroup : List (String × List FileInfo) → String → FileInfo →
    List (String × List FileInfo)
  | [], h, fi => [(h, [fi])]
  | (h0, fs) :: rest, h, fi =>
    if h0 = h then (h0, fs ++ [fi]) :: rest
    else (h0, fs) :: appendGroup rest h fi

/-- The body of the per-file hashing loop (scanner.py lines 531-566):
exclusion check, `stat` (failure skips the file), the 1 MiB size floor,
`hash_file` (a `none` digest skips the file), then accumulation. -/
def processDupFile (dirpath : String) (f : FileNode) (st : DupState) : DupState :=
  if should_exclude_path (joinPath dirpath f.name) then st
  else if !f.statOk then st
  else if f.size < 1024 * 1024 then st
  else
    match f.hashResult with
    | none => { st with hashed := st.hashed ++ [f] }
    | some h =>
      { st with
          hashed := st.hashed ++ [f]
          hash_groups := appendGroup st.hash_groups h
            { path := joinPath dirpath f.name
              size_bytes := f.size
              modified_date := f.mtime
              created_date := f.ctime }
          processed_count := st.processed_count + 1 }

/-- The inner file loop of the hashing pass with its per-file cancellation
check (scanner.py lines 527-529); `k` counts `is_set` checks.  Returns the
next check index, the state, and whether the loop broke on cancellation. -/
def hashFilesLoop (ce : CancelEvent) (dirpath : String) :
    Nat → List FileNode → DupState → Nat × DupState × Bool
  | k, [], st => (k, st, false)
  | k, f :: fs, st =>
    if ce.is_set k then (k + 1, st, true)
    else hashFilesLoop ce dirpath (k + 1) fs (processDupFile dirpath f st)

/-- The outer directory loop of the hashing pass with its per-directory
cancellation check (scanner.py lines 520-522); a break of the inner loop
ends the walk. -/
def hashDirsLoop (ce : CancelEvent) :
    Nat → List (String × List FileNode) → DupState → DupState
  | _, [], st => st
  | k, (dp, files) :: rest, st =>
    if ce.is_set k then st
    else
      match hashFilesLoop ce dp (k + 1) files st with
      | (_, st1, true) => st1
      | (k1, st1, false) => hashDirsLoop ce k1 rest st1

/-- The empty accumulation state. -/
def initDupState : DupState :=
  { hash_groups := [], hashed := [], processed_count := 0 }

/-- `files[0].size_bytes` (scanner.py line 583); the empty case cannot be
reached because the bucket has at least two members. -/
def firstSize : List FileInfo → Nat
  | [] => 0
  | f :: _ => f.size_bytes

/-- Conversion of hash buckets to `DuplicateGroup`s, keeping only buckets
with at least two members (scanner.py lines 578-588). -/
def toDuplicateGroups : List (String × List FileInfo) → List DuplicateGroup
  | [] => []
  | (h, files) :: rest =>
    if 2 ≤ files.length then
      { file_hash := h, size_bytes := firstSize files, files := files }
        :: toDuplicateGroups rest
    else toDuplicateGroups rest

/-- The descending-wasted-space comparison used by the final sort
(scanner.py line 591). -/
def wastedDesc (a b : DuplicateGroup) : Bool :=
  decide (b.get_wasted_space ≤ a.get_wasted_space)

/-- `DiscoveryScanner.scan_duplicates` (scanner.py lines 473-593): clear the
token, hash the walk of the root under cancellation, keep buckets of two or
more files, sort by wasted space descending.  The counting pass (lines
497-516) only computes the denominator reported to the progress callback and
does not influence the returned groups, so it is not modelled. -/
def scan_duplicates (root : String) (tree : DirTree) (cancel : CancelEvent) :
    List DuplicateGroup :=
  let ce := cancel.clear
  let st := hashDirsLoop ce 0 (walkFrom root tree) initDupState
  (toDuplicateGroups st.hash_groups).mergeSort wastedDesc

/-- The files handed to `hash_file` during `scan_duplicates`. -/
def scan_duplicates_hashed (root : String) (tree : DirTree)
    (cancel : CancelEvent) : List FileNode :=
  (hashDirsLoop cancel.clear 0 (walkFrom root tree) initDupState).hashed

/-- Mutable state of `scan_large_files`. -/
structure LargeState where
  large_files : List LargeFileInfo
  processed_count : Nat
deriving DecidableEq

/-- `(datetime.now() - modified_date).days` with times in epoch seconds. -/
def ageDays (now mtime : Int) : Int :=
  (now - mtime).fdiv 86400

/-- The body of the per-file loop of `scan_large_files` (scanner.py lines
631-660): exclusion check, `stat`, the threshold floor, then the record. -/
def processLargeFile (now : Int) (threshold_bytes : Nat) (dirpath : String)
    (f : FileNode) (st : LargeState) : LargeState :=
  if should_exclude_path (joinPath dirpath f.name) then st
  else if !f.statOk then st
  else if f.size < threshold_bytes then st
  else
    { large_files := st.large_files ++
        [{ path := joinPath dirpath f.name
           size_bytes := f.size
           modified_date := f.mtime
           created_date := f.ctime
           file_type := get_file_type f.name
           age_days := ageDays now f.mtime }]
      processed_count := st.processed_count + 1 }

/-- The inner file loop of `scan_large_files` with its per-file cancellation
check (scanner.py lines 627-629). -/
def largeFilesLoop (ce : CancelEvent) (now : Int) (threshold_bytes : Nat)
    (dirpath : String) :
    Nat → List FileNode → LargeState → Nat × LargeState × Bool
  | k, [], st => (k, st, false)
  | k, f :: fs, st =>
    if ce.is_set k then (k + 1, st, true)
    else
      largeFilesLoop ce now threshold_bytes dirpath (k + 1) fs
        (processLargeFile now threshold_bytes dirpath f st)

/-- The outer directory loop of `scan_large_files` with its per-directory
cancellation check (scanner.py lines 620-622). -/
def largeDirsLoop (ce : CancelEvent) (now : Int) (threshold_bytes : Nat) :
    Nat → List (String × List FileNode) → LargeState → LargeState
  | _, [], st => st
  | k, (dp, files) :: rest, st =>
    if ce.is_set k then st
    else
      match largeFilesLoop ce now threshold_bytes dp (k + 1) files st with
      | (_, st1, true) => st1
      | (k1, st1, false) => largeDirsLoop ce now threshold_bytes k1 rest st1

/-- The descending-size comparison used by the final sort
(scanner.py line 673). -/
def sizeDesc (a b : LargeFileInfo) : Bool :=
  decide (b.size_bytes ≤ a.size_bytes)

/-- `DiscoveryScanner.scan_large_files` (scanner.py lines 595-675): clear the
token, convert the MB threshold to bytes, collect qualifying files from the
walk under cancellation, sort by size descending. -/
def scan_large_files (root : String) (tree : DirTree) (threshold_mb : Nat)
    (now : Int) (cancel : CancelEvent) : List LargeFileInfo :=
  let ce := cancel.clear
  let threshold_bytes := threshold_mb * 1024 * 1024
  let st := largeDirsLoop ce now threshold_bytes 0 (walkFrom root tree)
    { large_files := [], processed_count := 0 }
  st.large_files.mergeSort sizeDesc

/-! ## cleaner.py : Cleaner -/

/-- `Cleaner._get_lock_hint` (cleaner.py lines 128-146).  (The leading
underscore is dropped; the single quotes around `gradlew --stop` are written
as `\x27` escapes.) -/
def get_lock_hint (path : String) : String :=
  let p := lowerChars path
  if containsChars (".gradle".data) p then
    "Try closing Android Studio and stopping Gradle daemons (run \x27gradlew --stop\x27 in your project)."
  else if containsChars (".android".data) p then
    "Try closing Android Studio and any running emulators."
  else if containsChars (".npm".data) p then
    "Try closing any running Node.js processes or IDEs."
  else if containsChars (".cargo".data) p then
    "Try closing any running Rust builds or IDEs."
  else if containsChars (".cursor".data) p then
    "Try closing Cursor editor."
  else if containsChars (".vscode".data) p then
    "Try closing VS Code."
  else
    "Try closing applications that might be using these files."

/-- Per-file sizes summed by `Cleaner._calculate_size`; a file whose `stat`
fails contributes nothing (cleaner.py lines 155-160). -/
def sumFiles : List FileNode → Nat
  | [] => 0
  | f :: fs => (if f.statOk then f.size else 0) + sumFiles fs

mutual

/-- `Cleaner._calculate_size` (cleaner.py lines 148-164): best-effort total
of the file sizes under the tree, with no exclusion pruning.  (The leading
underscore is dropped.) -/
def calculate_size : DirTree → Nat
  | .node _ files subdirs => sumFiles files + calcSizeList subdirs

/-- Size of a list of subtrees. -/
def calcSizeList : List DirTree → Nat
  | [] => 0
  | t :: ts => calculate_size t + calcSizeList ts

end

/-- Outcome of `shutil.rmtree` on the non-Windows branch of `delete_folder`
(cleaner.py lines 66-82). -/
inductive RmtreeOutcome where
  | ok
  | permissionError (msg : String)
  | osError (msg : String)
  | otherError (excName : String)
deriving DecidableEq

/-- The completed-process fields of `subprocess.run(..., timeout=300)`
inspected by `_delete_windows_long_path` (cleaner.py lines 94-105). -/
structure RdResult where
  returncode : Int
  stderrOut : String
  stdoutOut : String
deriving DecidableEq

/-- The environment a single `delete_folder` call runs against: the
observations the code makes of the target path and the outcome of the
removal primitive it reaches.  `removalSeconds` is the wall time the
underlying removal takes; the Windows branch abandons it past its
300-second ceiling while `shutil.rmtree` offers no such bound. -/
structure FolderTarget where
  path : String
  pathExists : Bool
  isDir : Bool
  tree : DirTree
  platformWin : Bool
  removalSeconds : Nat
  rd : RdResult
  rdRaises : Option String
  existsAfterRd : Bool
  rmtree : RmtreeOutcome

/-- `Cleaner._delete_windows_long_path` (cleaner.py lines 84-126): run
`cmd /c rd /s /q` with a 300-second timeout; a run past the ceiling raises
`TimeoutExpired` and is reported as a timeout; otherwise the return code and
the stripped error output are pattern-matched for lock and
already-partially-deleted diagnostics.  (The leading underscore is
dropped.) -/
def delete_windows_long_path (t : FolderTarget) : Bool × Option String :=
  if 300 < t.removalSeconds then
    (false, some ("Deletion timed out. The folder may be very large or files may be locked."))
  else
    match t.rdRaises with
    | some e => (false, some ("Error: " ++ e))
    | none =>
      if t.rd.returncode = 0 then (true, none)
      else
        let error_output :=
          if t.rd.stderrOut ≠ "" then stripChars t.rd.stderrOut.data
          else stripChars t.rd.stdoutOut.data
        if containsChars ("Access is denied".data) error_output
            || containsChars ("being used".data) error_output then
          (false, some ("Some files are locked. " ++ get_lock_hint t.path))
        else if containsChars ("cannot find".data) (error_output.map Char.toLower)
            && !t.existsAfterRd then
          (true, none)
        else
          (false, some ("Deletion failed. " ++ get_lock_hint t.path))

/-- `Cleaner.delete_folder` (cleaner.py lines 30-82): a missing path is a
successful no-op, a non-directory is an explicit failure, otherwise the size
is computed before removal and the platform-appropriate removal runs;
failures free zero bytes. -/
def delete_folder (t : FolderTarget) : Bool × Option String × Nat :=
  if !t.pathExists then (true, none, 0)
  else if !t.isDir then (false, some ("Path is not a directory"), 0)
  else
    let bytes_freed := calculate_size t.tree
    if t.platformWin then
      match delete_windows_long_path t with
      | (true, _) => (true, none, bytes_freed)
      | (false, msg) => (false, msg, 0)
    else
      match t.rmtree with
      | .ok => (true, none, bytes_freed)
      | .permissionError _ =>
        (false, some ("Some files are locked. " ++ get_lock_hint t.path), 0)
      | .osError _ =>
        (false, some ("Cannot delete - files may be in use. " ++ get_lock_hint t.path), 0)
      | .otherError ty =>
        (false, some ("Unexpected error: " ++ ty), 0)

/-- The `FolderInfo` fields `delete_folders_batch` reads: the display name
and the target of `full_path`. -/
structure FolderItem where
  name : String
  full_path : FolderTarget

/-- The `results` dict of `delete_folders_batch`
(cleaner.py lines 179-184). -/
structure BatchResult where
  success_count : Nat
  failed_count : Nat
  total_bytes_freed : Nat
  errors : List (String × Option String)
deriving DecidableEq

/-- One iteration of the batch loop (cleaner.py lines 188-202): a success
bumps the count and the freed total, a failure bumps the failure count and
appends the (folder name, error) pair. -/
def batchStep (acc : BatchResult) (it : FolderItem) : BatchResult :=
  match delete_folder it.full_path with
  | (true, _, bytes) =>
    { acc with
        success_count := acc.success_count + 1
        total_bytes_freed := acc.total_bytes_freed + bytes }
  | (false, msg, _) =>
    { acc with
        failed_count := acc.failed_count + 1
        errors := acc.errors ++ [(it.name, msg)] }

/-- The batch loop: items strictly one at a time in the given order. -/
def batchLoop (acc : BatchResult) : List FolderItem → BatchResult
  | [] => acc
  | it :: rest => batchLoop (batchStep acc it) rest

/-- `Cleaner.delete_folders_batch` (cleaner.py lines 166-204).  The progress
callback fired before each deletion does not influence the result and is not
modelled. -/
def delete_folders_batch (folders : List FolderItem) : BatchResult :=
  batchLoop { success_count := 0, failed_count := 0, total_bytes_freed := 0, errors := [] }
    folders

/-- Whether the deletion of an item fails. -/
def itemFails (it : FolderItem) : Bool :=
  !(delete_folder it.full_path).1

/-- Bytes a successful deletion of the item frees; zero on failure. -/
def itemFreed (it : FolderItem) : Nat :=
  match delete_folder it.full_path with
  | (true, _, bytes) => bytes
  | (false, _, _) => 0

/-- The (folder name, error) pair a failing item contributes. -/
def itemError (it : FolderItem) : Option (String × Option String) :=
  match delete_folder it.full_path with
  | (true, _, _) => none
  | (false, msg, _) => some (it.name, msg)

/-- Outcome of `shutil.move` in `move_file` (cleaner.py lines 274-289). -/
inductive MoveOutcome where
  | ok
  | permissionError (msg : String)
  | osError (msg : String)
  | otherError (excName : String)
deriving DecidableEq

/-- The filesystem state a `move_file` call observes and transforms: the
source file, the destination directory, the same-named destination file, and
the outcomes of `mkdir` and `shutil.move`. -/
structure MoveWorld where
  src_exists : Bool
  src_is_file : Bool
  src_content : String
  dest_exists : Bool
  dest_is_dir : Bool
  mkdir_error : Option String
  dest_file_exists : Bool
  dest_file_content : String
  move_outcome : MoveOutcome
deriving DecidableEq

/-- Result of `move_file` together with the filesystem state it leaves. -/
structure MoveResult where
  success : Bool
  error : Option String
  world : MoveWorld
deriving DecidableEq

/-- `Cleaner.move_file` (cleaner.py lines 232-289): validate the source,
create the destination directory (with parents) when absent, refuse to
overwrite a same-named destination file, then move; the apostrophe in the
missing-source message is written as a `\x27` escape. -/
def move_file (w : MoveWorld) : MoveResult :=
  if !w.src_exists then
    { success := false, error := some ("Source file doesn\x27t exist"), world := w }
  else if !w.src_is_file then
    { success := false, error := some ("Source path is not a file"), world := w }
  else
    match
      (if !w.dest_exists then
        match w.mkdir_error with
        | some e =>
          Sum.inl ({ success := false
                     error := some ("Failed to create destination directory: " ++ e)
                     world := w } : MoveResult)
        | none => Sum.inr { w with dest_exists := true, dest_is_dir := true }
      else Sum.inr w) with
    | Sum.inl r => r
    | Sum.inr w1 =>
      if !w1.dest_is_dir then
        { success := false, error := some ("Destination is not a directory"), world := w1 }
      else if w1.dest_file_exists then
        { success := false, error := some ("Destination file already exists"), world := w1 }
      else
        match w1.move_outcome with
        | .ok =>
          { success := true
            error := none
            world := { w1 with
                         src_exists := false
                         dest_file_exists := true
                         dest_file_content := w1.src_content } }
        | .permissionError e =>
          { success := false, error := some ("Permission denied: " ++ e), world := w1 }
        | .osError e =>
          { success := false, error := some ("Cannot move file: " ++ e), world := w1 }
        | .otherError ty =>
          { success := false, error := some ("Unexpected error: " ++ ty), world := w1 }

/-! ## Spec-side predicate for the exclusion claim -/

/-- The exclusion predicate as the spec words it: an excluded entry occurring
case-insensitively in the path, or ANY path component beginning with a dot or
a dollar sign (the code checks only the final component). -/
def spec_should_exclude (p : String) : Bool :=
  EXCLUDED_PATHS.any (fun ex => containsChars (lowerChars ex) (lowerChars p))
    || (splitOnSep '\\' p.data).any
        (fun comp => startsWithChar comp '.' || startsWithChar comp '$')

/-! ## Invariants used by the scan proofs -/

/-- Every file recorded in every hash bucket meets the 1 MiB floor. -/
def GroupsLB (gs : List (String × List FileInfo)) : Prop :=
  ∀ p ∈ gs, ∀ fi ∈ p.2, 1024 * 1024 ≤ fi.size_bytes

/-- Every bucket member and every hashed file meets the 1 MiB floor. -/
def DupLB (st : DupState) : Prop :=
  GroupsLB st.hash_groups ∧ ∀ f ∈ st.hashed, 1024 * 1024 ≤ f.size

/-- Every collected large-file record meets the byte threshold. -/
def LargeLB (threshold_bytes : Nat) (st : LargeState) : Prop :=
  ∀ r ∈ st.large_files, threshold_bytes ≤ r.size_bytes

/-! ## Concrete inputs used by witnesses and counterexamples -/

/-- A 1 MiB file whose digest is `"h"`. -/
def fileAW : FileNode :=
  { name := "a", size := 1048576, statOk := true, hashResult := some ("h")
    mtime := 0, ctime := none }

/-- A second 1 MiB file with the same digest. -/
def fileBW : FileNode :=
  { name := "b", size := 1048576, statOk := true, hashResult := some ("h")
    mtime := 0, ctime := none }

/-- A directory holding the two duplicate files. -/
def dupTreeW : DirTree := .node ("data") [fileAW, fileBW] []

/-- A token that is neither set at entry nor set during the scan. -/
def cancelW : CancelEvent := { isSet := false, externalSetAt := none }

/-- The record the scan builds for `fileAW`. -/
def fiAW : FileInfo :=
  { path := "C:\\data\\a", size_bytes := 1048576, modified_date := 0, created_date := none }

/-- The record the scan builds for `fileBW`. -/
def fiBW : FileInfo :=
  { path := "C:\\data\\b", size_bytes := 1048576, modified_date := 0, created_date := none }

/-- The duplicate group the scan returns for the two files. -/
def groupW : DuplicateGroup :=
  { file_hash := "h", size_bytes := 1048576, files := [fiAW, fiBW] }

/-- A directory holding one 1 MiB file. -/
def largeTreeW : DirTree := .node ("data") [fileAW] []

/-- The record `scan_large_files` builds for `fileAW` at threshold 1 MB. -/
def largeRecW : LargeFileInfo :=
  { path := "C:\\data\\a", size_bytes := 1048576, modified_date := 0, created_date := none
    file_type := "other", age_days := 0 }

/-- A deletion target whose path does not exist. -/
def folderMissingW : FolderTarget :=
  { path := "C:\\gone", pathExists := false, isDir := false, tree := .node ("gone") [] []
    platformWin := true, removalSeconds := 0
    rd := { returncode := 0, stderrOut := "", stdoutOut := "" }
    rdRaises := none, existsAfterRd := false, rmtree := .ok }

/-- A deletion target that exists but is a plain file. -/
def folderFileW : FolderTarget :=
  { path := "C:\\f.txt", pathExists := true, isDir := false, tree := .node ("f.txt") [] []
    platformWin := true, removalSeconds := 0
    rd := { returncode := 0, stderrOut := "", stdoutOut := "" }
    rdRaises := none, existsAfterRd := false, rmtree := .ok }

/-- A Windows deletion whose `rd` run exceeds the 300-second ceiling. -/
def winTimeoutW : FolderTarget :=
  { path := "C:\\big", pathExists := true, isDir := true, tree := .node ("big") [] []
    platformWin := true, removalSeconds := 301
    rd := { returncode := 0, stderrOut := "", stdoutOut := "" }
    rdRaises := none, existsAfterRd := false, rmtree := .ok }

/-- An existing directory on the non-Windows branch whose removal by
`shutil.rmtree` takes far longer than 300 seconds and still completes. -/
def timeoutIgnoredW : FolderTarget :=
  { path := "/home/u/big", pathExists := true, isDir := true
    tree := .node ("big")
      [{ name := "f", size := 7, statOk := true, hashResult := none, mtime := 0, ctime := none }] []
    platformWin := false, removalSeconds := 100000
    rd := { returncode := 0, stderrOut := "", stdoutOut := "" }
    rdRaises := none, existsAfterRd := false, rmtree := .ok }

/-- A move whose destination already holds a same-named file. -/
def moveBlockedW : MoveWorld :=
  { src_exists := true, src_is_file := true, src_content := "payload"
    dest_exists := true, dest_is_dir := true, mkdir_error := none
    dest_file_exists := true, dest_file_content := "old", move_outcome := .ok }

/-- A move into a previously-absent destination directory that fails at the
`shutil.move` step after the directory has been created. -/
def moveFailW : MoveWorld :=
  { src_exists := true, src_is_file := true, src_content := "payload"
    dest_exists := false, dest_is_dir := false, mkdir_error := none
    dest_file_exists := false, dest_file_content := "", move_outcome := .osError ("disk full") }

/-! ## Theorems -/

/-- C5: a nonexistent path deletes as a successful no-op freeing zero bytes,
and an existing non-directory path fails with the explicit
"Path is not a directory" error and zero bytes freed. -/
theorem delete_folder_trivial_cases (t : FolderTarget) :
    (t.pathExists = false → delete_folder t = (true, none, 0))
    ∧ (t.pathExists = true → t.isDir = false →
        delete_folder t = (false, some ("Path is not a directory"), 0)) := by
  constructor
  · intro h
    simp [delete_folder, h]
  · intro h1 h2
    simp [delete_folder, h1, h2]

/-- Witness for C5 at a missing path and at a plain-file path. -/
theorem delete_folder_trivial_cases_witness :
    delete_folder folderMissingW = (true, none, 0)
    ∧ delete_folder folderFileW = (false, some ("Path is not a directory"), 0) :=
  ⟨(delete_folder_trivial_cases folderMissingW).1 rfl,
   (delete_folder_trivial_cases folderFileW).2 rfl rfl⟩

/-- C6: when a same-named file already exists at the destination, `move_file`
fails, the existing destination file keeps its content, and the source file
is unchanged in existence and content. -/
theorem move_file_no_overwrite (w : MoveWorld) (h : w.dest_file_exists = true) :
    (move_file w).success = false
    ∧ (move_file w).world.src_exists = w.src_exists
    ∧ (move_file w).world.src_content = w.src_content
    ∧ (move_file w).world.dest_file_exists = true
    ∧ (move_file w).world.dest_file_content = w.dest_file_content := by
  cases h1 : w.src_exists <;> cases h2 : w.src_is_file <;>
    cases h3 : w.dest_exists <;> cases h4 : w.dest_is_dir <;>
    rcases h5 : w.mkdir_error with _ | e <;>
    rcases h6 : w.move_outcome with _ | e2 | e2 | e2 <;>
    simp [move_file, h, h1, h2, h3, h4, h5, h6]

/-- Witness for C6 at a blocked concrete move. -/
theorem move_file_no_overwrite_witness :
    (move_file moveBlockedW).success = false
    ∧ (move_file moveBlockedW).world.src_exists = moveBlockedW.src_exists
    ∧ (move_file moveBlockedW).world.src_content = moveBlockedW.src_content
    ∧ (move_file moveBlockedW).world.dest_file_exists = true
    ∧ (move_file moveBlockedW).world.dest_file_content = moveBlockedW.dest_file_content :=
  move_file_no_overwrite moveBlockedW rfl

/-- C10: `move_file` creates an absent destination directory before the
same-named-file check and before the move itself, so the directory exists
afterwards whether or not the call went on to fail. -/
theorem move_file_creates_dest (w : MoveWorld) (h1 : w.src_exists = true)
    (h2 : w.src_is_file = true) (h3 : w.dest_exists = false)
    (h4 : w.mkdir_error = none) :
    (move_file w).world.dest_exists = true
    ∧ (move_file w).world.dest_is_dir = true := by
  cases h5 : w.dest_file_exists <;>
    rcases h6 : w.move_outcome with _ | e | e | e <;>
    simp [move_file, h1, h2, h3, h4, h5, h6]

/-- Witness for C10: a concrete call that fails at the move step yet leaves
the freshly created destination directory behind. -/
theorem move_file_creates_dest_witness :
    (move_file moveFailW).success = false
    ∧ (move_file moveFailW).world.dest_exists = true :=
  ⟨by decide, (move_file_creates_dest moveFailW rfl rfl rfl rfl).1⟩

/-- C8 counterexample: an existing directory deleted on the non-Windows
branch whose removal runs for 100000 seconds is still awaited and reported
as a success, not abandoned at 300 seconds as a timeout failure. -/
theorem delete_folder_no_timeout_off_windows :
    timeoutIgnoredW.pathExists = true
    ∧ timeoutIgnoredW.isDir = true
    ∧ 300 < timeoutIgnoredW.removalSeconds
    ∧ delete_folder timeoutIgnoredW = (true, none, 7) := by
  decide

/-- C8 (amended): on the Windows branch, a removal running past the
300-second ceiling is abandoned and reported with the distinct timeout
message, freeing zero bytes. -/
theorem delete_folder_windows_timeout (t : FolderTarget) (h1 : t.pathExists = true)
    (h2 : t.isDir = true) (h3 : t.platformWin = true)
    (h4 : 300 < t.removalSeconds) :
    delete_folder t =
      (false,
       some ("Deletion timed out. The folder may be very large or files may be locked."),
       0) := by
  simp [delete_folder, delete_windows_long_path, h1, h2, h3, h4]

/-- Witness for C8 (amended) at a concrete Windows target. -/
theorem delete_folder_windows_timeout_witness :
    delete_folder winTimeoutW =
      (false,
       some ("Deletion timed out. The folder may be very large or files may be locked."),
       0) :=
  delete_folder_windows_timeout winTimeoutW rfl rfl rfl (by decide)

/-- C9: both scans clear the cancellation token on entry, so the result does
not depend on whether the token was set before the call; only a set landing
after the scan began (the external-set schedule) can influence it. -/
theorem scan_cancel_cleared_on_entry (root : String) (tree : DirTree)
    (thr : Nat) (now : Int) (a b : Bool) (ext : Option Nat) :
    scan_duplicates root tree { isSet := a, externalSetAt := ext }
      = scan_duplicates root tree { isSet := b, externalSetAt := ext }
    ∧ scan_large_files root tree thr now { isSet := a, externalSetAt := ext }
      = scan_large_files root tree thr now { isSet := b, externalSetAt := ext }
    ∧ (CancelEvent.clear { isSet := a, externalSetAt := ext }).isSet = false :=
  ⟨rfl, rfl, rfl⟩

/-- C7 counterexample: a path with a dot-leading middle component and an
ordinary final component is excluded under the spec wording (any component)
but not by the code (final component only). -/
theorem should_exclude_path_component_mismatch :
    spec_should_exclude ("C:\\Users\\.git\\config") = true
    ∧ should_exclude_path ("C:\\Users\\.git\\config") = false := by
  decide

/-- C7 (amended): the exclusion predicate holds exactly when an excluded
entry occurs case-insensitively in the path or the FINAL path component
begins with a dot or a dollar sign; it is a pure string predicate. -/
theorem should_exclude_path_characterization (p : String) :
    should_exclude_path p = true ↔
      (∃ ex ∈ EXCLUDED_PATHS, containsChars (lowerChars ex) (lowerChars p) = true)
      ∨ startsWithChar (pathName p) '.' = true
      ∨ startsWithChar (pathName p) '$' = true := by
  simp [should_exclude_path, List.any_eq_true, or_assoc]

/-- The batch loop over a concatenation processes the first list, then the
second, from the same accumulator. -/
theorem batchLoop_append (acc : BatchResult) (xs ys : List FolderItem) :
    batchLoop acc (xs ++ ys) = batchLoop (batchLoop acc xs) ys := by
  induction xs generalizing acc with
  | nil => rfl
  | cons it rest ih => simp [batchLoop, ih]

/-- The success count accumulated by the batch loop splits off the initial
accumulator. -/
theorem batchLoop_success (acc : BatchResult) (l : List FolderItem) :
    (batchLoop acc l).success_count
      = acc.success_count + (delete_folders_batch l).success_count := by
  induction l generalizing acc with
  | nil => simp [batchLoop, delete_folders_batch]
  | cons it rest ih =>
    rcases hd : delete_folder it.full_path with ⟨ok, msg, bytes⟩
    rw [delete_folders_batch, batchLoop, batchLoop, ih, ih (batchStep _ it)]
    cases ok <;> simp [batchStep, hd] <;> omega

/-- The failure count accumulated by the batch loop splits off the initial
accumulator. -/
theorem batchLoop_failed (acc : BatchResult) (l : List FolderItem) :
    (batchLoop acc l).failed_count
      = acc.failed_count + (delete_folders_batch l).failed_count := by
  induction l generalizing acc with
  | nil => simp [batchLoop, delete_folders_batch]
  | cons it rest ih =>
    rcases hd : delete_folder it.full_path with ⟨ok, msg, bytes⟩
    rw [delete_folders_batch, batchLoop, batchLoop, ih, ih (batchStep _ it)]
    cases ok <;> simp [batchStep, hd] <;> omega

/-- The freed-byte total accumulated by the batch loop splits off the
initial accumulator. -/
theorem batchLoop_total (acc : BatchResult) (l : List FolderItem) :
    (batchLoop acc l).total_bytes_freed
      = acc.total_bytes_freed + (delete_folders_batch l).total_bytes_freed := by
  induction l generalizing acc with
  | nil => simp [batchLoop, delete_folders_batch]
  | cons it rest ih =>
    rcases hd : delete_folder it.full_path with ⟨ok, msg, bytes⟩
    rw [delete_folders_batch, batchLoop, batchLoop, ih, ih (batchStep _ it)]
    cases ok <;> simp [batchStep, hd] <;> omega

/-- The error list accumulated by the batch loop splits off the initial
accumulator. -/
theorem batchLoop_errors (acc : BatchResult) (l : List FolderItem) :
    (batchLoop acc l).errors = acc.errors ++ (delete_folders_batch l).errors := by
  induction l generalizing acc with
  | nil => simp [batchLoop, delete_folders_batch]
  | cons it rest ih =>
    rcases hd : delete_folder it.full_path with ⟨ok, msg, bytes⟩
    rw [delete_folders_batch, batchLoop, batchLoop, ih, ih (batchStep _ it)]
    cases ok <;> simp [batchStep, hd]

/-- The batch failure count is the number of failing items. -/
theorem delete_folders_batch_failed (l : List FolderItem) :
    (delete_folders_batch l).failed_count = (l.filter itemFails).length := by
  induction l with
  | nil => rfl
  | cons it rest ih =>
    rcases hd : delete_folder it.full_path with ⟨ok, msg, bytes⟩
    rw [delete_folders_batch, batchLoop, batchLoop_failed]
    cases ok <;> simp [batchStep, hd, itemFails, List.filter, ih] <;> omega

/-- The batch success count is the item count minus the failing-item count. -/
theorem delete_folders_batch_success (l : List FolderItem) :
    (delete_folders_batch l).success_count
      = l.length - (l.filter itemFails).length := by
  induction l with
  | nil => rfl
  | cons it rest ih =>
    have hK := List.length_filter_le itemFails rest
    rcases hd : delete_folder it.full_path with ⟨ok, msg, bytes⟩
    rw [delete_folders_batch, batchLoop, batchLoop_success]
    cases ok <;> simp [batchStep, hd, itemFails, List.filter, ih] <;> omega

/-- The batch error list is exactly the (name, message) pair of every
failing item, in the given order. -/
theorem delete_folders_batch_errors (l : List FolderItem) :
    (delete_folders_batch l).errors = l.filterMap itemError := by
  induction l with
  | nil => rfl
  | cons it rest ih =>
    rcases hd : delete_folder it.full_path with ⟨ok, msg, bytes⟩
    rw [delete_folders_batch, batchLoop, batchLoop_errors]
    cases ok <;> simp [batchStep, hd, itemError, List.filterMap_cons, ih]

/-- The batch freed total is the sum of the bytes freed by the successful
deletions. -/
theorem delete_folders_batch_total (l : List FolderItem) :
    (delete_folders_batch l).total_bytes_freed = (l.map itemFreed).sum := by
  induction l with
  | nil => rfl
  | cons it rest ih =>
    rcases hd : delete_folder it.full_path with ⟨ok, msg, bytes⟩
    rw [delete_folders_batch, batchLoop, batchLoop_total]
    cases ok <;> simp [batchStep, hd, itemFreed, ih]

/-- C4: over N items of which K fail, the batch reports N−K successes,
K failures, exactly the K (name, message) pairs of the failing items in
order, and the freed total of the successful deletions; and the batch over a
concatenation equals the two batches combined, so a failure anywhere never
stops the strictly sequential in-order processing of the remaining items. -/
theorem delete_folders_batch_accounting (items xs ys : List FolderItem) :
    (delete_folders_batch items).success_count
      = items.length - (items.filter itemFails).length
    ∧ (delete_folders_batch items).failed_count = (items.filter itemFails).length
    ∧ (delete_folders_batch items).errors = items.filterMap itemError
    ∧ (delete_folders_batch items).errors.length = (items.filter itemFails).length
    ∧ (delete_folders_batch items).total_bytes_freed = (items.map itemFreed).sum
    ∧ (delete_folders_batch (xs ++ ys)).success_count
        = (delete_folders_batch xs).success_count + (delete_folders_batch ys).success_count
    ∧ (delete_folders_batch (xs ++ ys)).failed_count
        = (delete_folders_batch xs).failed_count + (delete_folders_batch ys).failed_count
    ∧ (delete_folders_batch (xs ++ ys)).total_bytes_freed
        = (delete_folders_batch xs).total_bytes_freed + (delete_folders_batch ys).total_bytes_freed
    ∧ (delete_folders_batch (xs ++ ys)).errors
        = (delete_folders_batch xs).errors ++ (delete_folders_batch ys).errors := by
  refine ⟨delete_folders_batch_success items, delete_folders_batch_failed items,
    delete_folders_batch_errors items, ?_, delete_folders_batch_total items,
    ?_, ?_, ?_, ?_⟩
  · rw [delete_folders_batch_errors]
    induction items with
    | nil => rfl
    | cons it rest ih =>
      rcases hd : delete_folder it.full_path with ⟨ok, msg, bytes⟩
      cases ok <;> simp [itemError, itemFails, hd, List.filterMap_cons, List.filter, ih]
  · rw [delete_folders_batch, batchLoop_append, ← delete_folders_batch, batchLoop_success]
  · rw [delete_folders_batch, batchLoop_append, ← delete_folders_batch, batchLoop_failed]
  · rw [delete_folders_batch, batchLoop_append, ← delete_folders_batch, batchLoop_total]
  · rw [delete_folders_batch, batchLoop_append, ← delete_folders_batch, batchLoop_errors]

/-- Every group produced from the hash buckets has at least two members,
and its file list is one of the buckets. -/
theorem toDuplicateGroups_mem {gs : List (String × List FileInfo)}
    {g : DuplicateGroup} (hg : g ∈ toDuplicateGroups gs) :
    2 ≤ g.files.length ∧ ∃ p ∈ gs, g.files = p.2 := by
  induction gs with
  | nil => simp [toDuplicateGroups] at hg
  | cons q rest ih =>
    obtain ⟨h, files⟩ := q
    by_cases hlen : 2 ≤ files.length
    · rw [toDuplicateGroups, if_pos hlen] at hg
      rcases List.mem_cons.mp hg with rfl | hmem
      · exact ⟨hlen, ⟨(h, files), List.mem_cons_self _ _, rfl⟩⟩
      · obtain ⟨hl, p, hp, hf⟩ := ih hmem
        exact ⟨hl, p, List.mem_cons_of_mem _ hp, hf⟩
    · rw [toDuplicateGroups, if_neg hlen] at hg
      obtain ⟨hl, p, hp, hf⟩ := ih hg
      exact ⟨hl, p, List.mem_cons_of_mem _ hp, hf⟩

/-- Appending a file that meets the 1 MiB floor to a bucket keeps every
bucket member above the floor. -/
theorem appendGroup_LB {gs : List (String × List FileInfo)} {h : String}
    {fi : FileInfo} (hgs : GroupsLB gs) (hfi : 1024 * 1024 ≤ fi.size_bytes) :
    GroupsLB (appendGroup gs h fi) := by
  induction gs with
  | nil =>
    intro p hp x hx
    simp only [appendGroup, List.mem_singleton] at hp
    subst hp
    simp only [List.mem_singleton] at hx
    subst hx
    exact hfi
  | cons q rest ih =>
    obtain ⟨h0, fs⟩ := q
    intro p hp x hx
    simp only [appendGroup] at hp
    by_cases he : h0 = h
    · rw [if_pos he] at hp
      rcases List.mem_cons.mp hp with rfl | hp2
      · rcases List.mem_append.mp hx with hx2 | hx2
        · exact hgs (h0, fs) (List.mem_cons_self _ _) x hx2
        · simp only [List.mem_singleton] at hx2
          subst hx2
          exact hfi
      · exact hgs p (List.mem_cons_of_mem _ hp2) x hx
    · rw [if_neg he] at hp
      rcases List.mem_cons.mp hp with rfl | hp2
      · exact hgs (h0, fs) (List.mem_cons_self _ _) x hx
      · exact ih (fun r hr => hgs r (List.mem_cons_of_mem _ hr)) p hp2 x hx

/-- Processing one file preserves the 1 MiB lower bound on buckets and on
the hashed log: the size floor is checked before `hash_file` is called. -/
theorem processDupFile_LB (dp : String) (f : FileNode) (st : DupState)
    (h : DupLB st) : DupLB (processDupFile dp f st) := by
  unfold processDupFile
  split
  · exact h
  split
  · exact h
  split
  · exact h
  split
  · refine ⟨h.1, ?_⟩
    intro f2 hf2
    rcases List.mem_append.mp hf2 with hf2 | hf2
    · exact h.2 f2 hf2
    · simp only [List.mem_singleton] at hf2
      subst hf2
      omega
  · refine ⟨appendGroup_LB h.1 (show 1024 * 1024 ≤ f.size by omega), ?_⟩
    intro f2 hf2
    rcases List.mem_append.mp hf2 with hf2 | hf2
    · exact h.2 f2 hf2
    · simp only [List.mem_singleton] at hf2
      subst hf2
      omega

/-- The inner hashing loop preserves the 1 MiB lower bound. -/
theorem hashFilesLoop_LB (ce : CancelEvent) (dp : String) :
    ∀ (k : Nat) (fs : List FileNode) (st : DupState), DupLB st →
      DupLB (hashFilesLoop ce dp k fs st).2.1 := by
  intro k fs
  induction fs generalizing k with
  | nil =>
    intro st h
    exact h
  | cons f fs ih =>
    intro st h
    simp only [hashFilesLoop]
    split
    · exact h
    · exact ih (k + 1) (processDupFile dp f st) (processDupFile_LB dp f st h)

/-- The outer hashing loop preserves the 1 MiB lower bound. -/
theorem hashDirsLoop_LB (ce : CancelEvent) :
    ∀ (k : Nat) (entries : List (String × List FileNode)) (st : DupState),
      DupLB st → DupLB (hashDirsLoop ce k entries st) := by
  intro k entries
  induction entries generalizing k with
  | nil =>
    intro st h
    exact h
  | cons e rest ih =>
    obtain ⟨dp, files⟩ := e
    intro st h
    simp only [hashDirsLoop]
    split
    · exact h
    · rcases hfl : hashFilesLoop ce dp (k + 1) files st with ⟨k1, st1, b⟩
      have h1 : DupLB st1 := by
        have h2 := hashFilesLoop_LB ce dp (k + 1) files st h
        rw [hfl] at h2
        exact h2
      cases b
      · exact ih k1 st1 h1
      · exact h1

/-- C1: every duplicate group returned by `scan_duplicates` has at least two
member files, its wasted space equals size × (member count − 1), and the
returned groups are ordered by wasted space descending. -/
theorem scan_duplicates_groups_sound (root : String) (tree : DirTree)
    (cancel : CancelEvent) :
    (∀ g ∈ scan_duplicates root tree cancel,
        2 ≤ g.files.length
        ∧ g.get_wasted_space = g.size_bytes * (g.files.length - 1))
    ∧ List.Pairwise (fun a b => b.get_wasted_space ≤ a.get_wasted_space)
        (scan_duplicates root tree cancel) := by
  constructor
  · intro g hg
    simp only [scan_duplicates] at hg
    obtain ⟨hlen, -⟩ := toDuplicateGroups_mem (List.mem_mergeSort.mp hg)
    refine ⟨hlen, ?_⟩
    rw [DuplicateGroup.get_wasted_space, if_neg (by omega)]
  · simp only [scan_duplicates]
    refine List.Pairwise.imp ?_ (@List.sorted_mergeSort DuplicateGroup wastedDesc ?_ ?_ _)
    · intro a b hab
      simpa [wastedDesc] using hab
    · intro a b c hab hbc
      simp only [wastedDesc, decide_eq_true_eq] at hab hbc ⊢
      omega
    · intro a b
      simpa [wastedDesc, Bool.or_eq_true, decide_eq_true_eq] using
        Nat.le_total b.get_wasted_space a.get_wasted_space

/-- The duplicate scan of the concrete two-duplicate directory returns
exactly the expected single group. -/
theorem scan_duplicates_eval :
    scan_duplicates ("C:\\data") dupTreeW cancelW = [groupW] := by
  have h1 : toDuplicateGroups
      (hashDirsLoop cancelW.clear 0 (walkFrom ("C:\\data") dupTreeW)
        initDupState).hash_groups = [groupW] := by decide
  simp only [scan_duplicates]
  rw [h1]
  simp [List.mergeSort]

/-- Witness for C1 at the concrete two-duplicate directory. -/
theorem scan_duplicates_groups_sound_witness :
    2 ≤ groupW.files.length
    ∧ groupW.get_wasted_space = groupW.size_bytes * (groupW.files.length - 1) :=
  (scan_duplicates_groups_sound ("C:\\data") dupTreeW cancelW).1 groupW
    (by rw [scan_duplicates_eval]; exact List.mem_singleton.mpr rfl)

/-- C2: during a duplicate scan every file handed to `hash_file` has size at
least 1 MiB, and every file record inside every returned duplicate group has
size at least 1 MiB — files under the floor are never hashed and never
appear in the result. -/
theorem scan_duplicates_min_size (root : String) (tree : DirTree)
    (cancel : CancelEvent) :
    (∀ f ∈ scan_duplicates_hashed root tree cancel, 1024 * 1024 ≤ f.size)
    ∧ (∀ g ∈ scan_duplicates root tree cancel, ∀ fi ∈ g.files,
        1024 * 1024 ≤ fi.size_bytes) := by
  have hinv : DupLB (hashDirsLoop cancel.clear 0 (walkFrom root tree) initDupState) :=
    hashDirsLoop_LB cancel.clear 0 (walkFrom root tree) initDupState
      ⟨by intro p hp; simp [initDupState] at hp,
       by intro f hf; simp [initDupState] at hf⟩
  constructor
  · intro f hf
    simp only [scan_duplicates_hashed] at hf
    exact hinv.2 f hf
  · intro g hg fi hfi
    simp only [scan_duplicates] at hg
    obtain ⟨-, p, hp, hfeq⟩ := toDuplicateGroups_mem (List.mem_mergeSort.mp hg)
    exact hinv.1 p hp fi (hfeq ▸ hfi)

/-- Witness for C2 at the concrete two-duplicate directory. -/
theorem scan_duplicates_min_size_witness :
    1024 * 1024 ≤ fileAW.size :=
  (scan_duplicates_min_size ("C:\\data") dupTreeW cancelW).1 fileAW (by decide)

/-- Processing one file preserves the threshold lower bound on the
large-file list: the threshold is checked before the record is added. -/
theorem processLargeFile_LB (now : Int) (tb : Nat) (dp : String) (f : FileNode)
    (st : LargeState) (h : LargeLB tb st) :
    LargeLB tb (processLargeFile now tb dp f st) := by
  unfold processLargeFile
  split
  · exact h
  split
  · exact h
  split
  · exact h
  intro r hr
  rcases List.mem_append.mp hr with hr | hr
  · exact h r hr
  · simp only [List.mem_singleton] at hr
    subst hr
    show tb ≤ f.size
    omega

/-- The inner large-file loop preserves the threshold lower bound. -/
theorem largeFilesLoop_LB (ce : CancelEvent) (now : Int) (tb : Nat) (dp : String) :
    ∀ (k : Nat) (fs : List FileNode) (st : LargeState), LargeLB tb st →
      LargeLB tb (largeFilesLoop ce now tb dp k fs st).2.1 := by
  intro k fs
  induction fs generalizing k with
  | nil =>
    intro st h
    exact h
  | cons f fs ih =>
    intro st h
    simp only [largeFilesLoop]
    split
    · exact h
    · exact ih (k + 1) (processLargeFile now tb dp f st)
        (processLargeFile_LB now tb dp f st h)

/-- The outer large-file loop preserves the threshold lower bound. -/
theorem largeDirsLoop_LB (ce : CancelEvent) (now : Int) (tb : Nat) :
    ∀ (k : Nat) (entries : List (String × List FileNode)) (st : LargeState),
      LargeLB tb st → LargeLB tb (largeDirsLoop ce now tb k entries st) := by
  intro k entries
  induction entries generalizing k with
  | nil =>
    intro st h
    exact h
  | cons e rest ih =>
    obtain ⟨dp, files⟩ := e
    intro st h
    simp only [largeDirsLoop]
    split
    · exact h
    · rcases hfl : largeFilesLoop ce now tb dp (k + 1) files st with ⟨k1, st1, b⟩
      have h1 : LargeLB tb st1 := by
        have h2 := largeFilesLoop_LB ce now tb dp (k + 1) files st h
        rw [hfl] at h2
        exact h2
      cases b
      · exact ih k1 st1 h1
      · exact h1

/-- C3: every record returned by `scan_large_files` has size at least the
requested threshold (converted from MB to bytes), and the returned list is
sorted by size descending. -/
theorem scan_large_files_sound (root : String) (tree : DirTree) (thr : Nat)
    (now : Int) (cancel : CancelEvent) :
    (∀ r ∈ scan_large_files root tree thr now cancel,
        thr * 1024 * 1024 ≤ r.size_bytes)
    ∧ List.Pairwise (fun a b => b.size_bytes ≤ a.size_bytes)
        (scan_large_files root tree thr now cancel) := by
  have hinv : LargeLB (thr * 1024 * 1024)
      (largeDirsLoop cancel.clear now (thr * 1024 * 1024) 0 (walkFrom root tree)
        { large_files := [], processed_count := 0 }) :=
    largeDirsLoop_LB cancel.clear now (thr * 1024 * 1024) 0 (walkFrom root tree)
      { large_files := [], processed_count := 0 }
      (by intro r hr; simp at hr)
  constructor
  · intro r hr
    simp only [scan_large_files] at hr
    exact hinv r (List.mem_mergeSort.mp hr)
  · simp only [scan_large_files]
    refine List.Pairwise.imp ?_ (@List.sorted_mergeSort LargeFileInfo sizeDesc ?_ ?_ _)
    · intro a b hab
      simpa [sizeDesc] using hab
    · intro a b c hab hbc
      simp only [sizeDesc, decide_eq_true_eq] at hab hbc ⊢
      omega
    · intro a b
      simpa [sizeDesc, Bool.or_eq_true, decide_eq_true_eq] using
        Nat.le_total b.size_bytes a.size_bytes

/-- The large-file scan of the concrete one-file directory at threshold 1 MB
returns exactly the expected record. -/
theorem scan_large_files_eval :
    scan_large_files ("C:\\data") largeTreeW 1 0 cancelW = [largeRecW] := by
  have h1 : (largeDirsLoop cancelW.clear 0 (1 * 1024 * 1024) 0
      (walkFrom ("C:\\data") largeTreeW)
      { large_files := [], processed_count := 0 }).large_files = [largeRecW] := by
    decide
  simp only [scan_large_files]
  rw [h1]
  simp [List.mergeSort]

/-- Witness for C3 at the concrete one-file directory. -/
theorem scan_large_files_sound_witness :
    1 * 1024 * 1024 ≤ largeRecW.size_bytes :=
  (scan_large_files_sound ("C:\\data") largeTreeW 1 0 cancelW).1 largeRecW
    (by rw [scan_large_files_eval]; exact List.mem_singleton.mpr rfl)

end SpaceCleanser
